import Mathlib

/-!
Shallow embedding of the IT-ELPYTHON scraping pipeline
(`src/Python_ord/ord_scraper.py` and `src/CRD_Zeus/CRDzeus.py`) and proofs
about its field mapping, record transformation, dataset processing and
pagination-walk logic.

Conventions of the embedding:
* Python `dict.get(k)` (no default) on an optional field is an `Option`
  field; `dict.get(k, d)` is `Option.getD`; a key whose default is the
  empty list is a plain `List` (an absent key and an empty list are
  behaviourally indistinguishable at every use site).
* Numeric JSON payloads (`value` entries) are never computed with, only
  carried; `Int` stands in as the opaque carrier of such values.
* Fallible paths return `Option`; URLs and item payloads of the archive
  walker are `String`s, as in the source.
-/

namespace ITElPython

/-! ## Field Mapper (`ord_scraper.py` lines 34-50)

Python dict literals become association lists (all keys distinct), looked
up with `List.lookup`; the `.get(code, "UNKNOWN")` use sites become
`Option.getD _ "UNKNOWN"`. -/

/-- `COMPONENT_ROLES` dict, line 34: role code → role name. -/
def COMPONENT_ROLES : List (Int × String) :=
  [(0, "UNSPECIFIED"), (1, "REACTANT"), (2, "REAGENT"), (3, "SOLVENT"),
   (4, "CATALYST"), (5, "WORKUP"), (6, "INTERNAL_STANDARD"),
   (7, "AUTHENTIC_STANDARD"), (8, "PRODUCT"), (9, "BYPRODUCT"),
   (10, "SIDE_PRODUCT")]

/-- `IDENTIFIER_TYPES` dict, line 40: identifier type code → name. -/
def IDENTIFIER_TYPES : List (Int × String) :=
  [(0, "UNSPECIFIED"), (1, "CUSTOM"), (2, "SMILES"), (3, "INCHI"),
   (4, "MOLBLOCK"), (5, "FINGERPRINT"), (6, "NAME"),
   (7, "IUPAC_NAME"), (8, "CAS_NUMBER")]

/-- The three fixed keys of the `MEASUREMENT_UNITS` dict-of-dicts. -/
inductive QtyKind where
  | mass
  | volume
  | moles
deriving DecidableEq, Repr

/-- `MEASUREMENT_UNITS` dict, line 46: quantity kind → unit code → unit name. -/
def MEASUREMENT_UNITS (k : QtyKind) : List (Int × String) :=
  match k with
  | .mass =>
    [(0, "UNSPECIFIED"), (1, "KILOGRAM"), (2, "GRAM"), (3, "MILLIGRAM"),
     (4, "MICROGRAM")]
  | .volume =>
    [(0, "UNSPECIFIED"), (1, "LITER"), (2, "MILLILITER"), (3, "MICROLITER"),
     (4, "NANOLITER")]
  | .moles =>
    [(0, "UNSPECIFIED"), (1, "MOLE"), (2, "MILLIMOLE"), (3, "MICROMOLE"),
     (4, "NANOMOLE")]

/-- `COMPONENT_ROLES.get(code, "UNKNOWN")` as at lines 166 and 230. -/
def roleName (c : Int) : String := (COMPONENT_ROLES.lookup c).getD "UNKNOWN"

/-- `COMPONENT_ROLES.get(comp.get("reactionRole"), "UNKNOWN")`: the role key
may be absent, and `None` is not a dict key, so absence also maps to
`"UNKNOWN"`. -/
def roleNameOpt (c : Option Int) : String :=
  match c with
  | some c => roleName c
  | none => "UNKNOWN"

/-- `IDENTIFIER_TYPES.get(code, "UNKNOWN")` as at line 121. -/
def identifierTypeName (c : Int) : String :=
  (IDENTIFIER_TYPES.lookup c).getD "UNKNOWN"

/-- `MEASUREMENT_UNITS[kind].get(code, "UNKNOWN")` as at lines 138 and 181. -/
def unitName (k : QtyKind) (c : Int) : String :=
  ((MEASUREMENT_UNITS k).lookup c).getD "UNKNOWN"

/-! ## Raw data model (shape of the scraped ORD JSON, as probed by the code) -/

/-- One entry of an `identifiersList`: `{"type": int?, "value": string?}`. -/
structure Identifier where
  type : Option Int
  value : Option String
deriving DecidableEq, Repr

/-- One measurement dict `{"value": ..., "units": int?}`; `units` is read with
`measurement.get('units', 0)`. -/
structure Measurement where
  value : Option Int
  units : Option Int
deriving DecidableEq, Repr

/-- An `amount` dict, holding at most the keys `moles`, `volume`, `mass`. -/
structure AmountObj where
  moles : Option Measurement
  volume : Option Measurement
  mass : Option Measurement
deriving DecidableEq, Repr

/-- One entry of `measurementsList`. -/
structure RawMeasurement where
  type : Option Int
  details : Option String
  amount : Option AmountObj
deriving DecidableEq, Repr

/-- One entry of a `componentsList`. -/
structure RawComponent where
  identifiersList : List Identifier
  amount : Option AmountObj
  reactionRole : Option Int
deriving DecidableEq, Repr

/-- The second element of an `inputsMap` pair. -/
structure RawInput where
  componentsList : List RawComponent
deriving DecidableEq, Repr

/-- One entry of a `productsList`. -/
structure RawProduct where
  identifiersList : List Identifier
  isDesiredProduct : Option Bool
  measurementsList : List RawMeasurement
deriving DecidableEq, Repr

/-- One entry of `outcomesList`. -/
structure RawOutcome where
  productsList : List RawProduct
deriving DecidableEq, Repr

/-- The object under the `data` key of a scraped reaction. -/
structure ReactionData where
  reactionId : Option String
  inputsMap : List (String × RawInput)
  outcomesList : List RawOutcome
deriving DecidableEq, Repr

/-- A raw reaction record as handed to the transformers: `data` is `none`
when the `'data'` key is absent; `success` is read with
`raw_reaction.get('success', True)`.  The whole record is an
`Option RawReaction` at the transformer boundary (`not raw_reaction`
catches a `None`/empty record). -/
structure RawReaction where
  data : Option ReactionData
  success : Option Bool
deriving DecidableEq, Repr

/-! ## `parse_identifiers` (lines 116-124) and `parse_amount` (lines 127-141) -/

/-- Output entry of `parse_identifiers`: type name + raw value. -/
structure ParsedIdentifier where
  type : String
  value : Option String
deriving DecidableEq, Repr

/-- `parse_identifiers`: `ident.get("type", 0)` defaults an absent type code
to `0` before the table lookup. -/
def parse_identifiers (ids : List Identifier) : List ParsedIdentifier :=
  ids.map fun ident => ⟨identifierTypeName (ident.type.getD 0), ident.value⟩

/-- Output of `parse_amount`: the singleton dict `{qty_type: {value, units}}`,
or the empty dict.  Exactly one quantity kind can be present, by
construction of this type. -/
inductive ParsedAmount where
  | empty
  | moles (value : Option Int) (units : String)
  | volume (value : Option Int) (units : String)
  | mass (value : Option Int) (units : String)
deriving DecidableEq, Repr

/-- `parse_amount` (lines 127-141): a falsy amount (absent, or the empty
dict, i.e. all three keys absent) yields `{}`; otherwise the loop over
`['moles', 'volume', 'mass']` returns on the first key present. -/
def parse_amount (amount_obj : Option AmountObj) : ParsedAmount :=
  match amount_obj with
  | none => .empty
  | some a =>
    match a.moles with
    | some m => .moles m.value (unitName .moles (m.units.getD 0))
    | none =>
      match a.volume with
      | some m => .volume m.value (unitName .volume (m.units.getD 0))
      | none =>
        match a.mass with
        | some m => .mass m.value (unitName .mass (m.units.getD 0))
        | none => .empty

/-! ## `transform_reaction_data` (lines 144-192), the detailed transform -/

/-- One detailed-output component dict. -/
structure DetComponent where
  identifiers : List ParsedIdentifier
  amount : ParsedAmount
  reaction_role : String
deriving DecidableEq, Repr

/-- One detailed-output measurement dict; `mass` is present exactly when
`'amount' in meas and 'mass' in meas['amount']` (lines 177-182). -/
structure DetMeasurement where
  type : Option Int
  details : Option String
  mass : Option (Option Int × String)
deriving DecidableEq, Repr

/-- One detailed-output outcome entry (lines 185-190). -/
structure DetOutcome where
  identifiers : List ParsedIdentifier
  reaction_role : String
  is_desired_product : Bool
  measurements : List DetMeasurement
deriving DecidableEq, Repr

/-- The detailed canonical record. -/
structure DetailedRecord where
  reaction_id : Option String
  success : Bool
  inputsMap : List (String × List DetComponent)
  outcomes : List DetOutcome
deriving DecidableEq, Repr

/-- Lines 175-183: build one output measurement. -/
def detMeasOf (meas : RawMeasurement) : DetMeasurement :=
  { type := meas.type
    details := meas.details
    mass :=
      match meas.amount with
      | none => none
      | some amt =>
        match amt.mass with
        | none => none
        | some m => some (m.value, unitName .mass (m.units.getD 0)) }

/-- Lines 162-167: build one output component. -/
def detComponentOf (comp : RawComponent) : DetComponent :=
  { identifiers := parse_identifiers comp.identifiersList
    amount := parse_amount comp.amount
    reaction_role := roleNameOpt comp.reactionRole }

/-- `transform_reaction_data` (lines 144-192): `None` for a falsy record or
an absent `'data'` key, otherwise the detailed record. -/
def transform_reaction_data (raw_reaction : Option RawReaction) : Option DetailedRecord :=
  match raw_reaction with
  | none => none
  | some r =>
    match r.data with
    | none => none
    | some data =>
      some
        { reaction_id := data.reactionId
          success := r.success.getD true
          inputsMap :=
            data.inputsMap.map fun p =>
              (p.1, p.2.componentsList.map detComponentOf)
          outcomes :=
            data.outcomesList.flatMap fun outcome =>
              outcome.productsList.map fun product =>
                { identifiers := parse_identifiers product.identifiersList
                  reaction_role := "PRODUCT"
                  is_desired_product := product.isDesiredProduct.getD false
                  measurements := product.measurementsList.map detMeasOf } }

/-! ## `simplify_reaction_data` (lines 195-248), the simplified transform -/

/-- The simplified `amount_info` dict: `{}`, `{'type': 'moles', 'value': v}`
or `{'type': 'volume', 'value': v, 'units': 'LITER'}` (lines 220-226);
each key is an `Option` field, `none` meaning the key is absent. -/
structure SimpleAmountInfo where
  type : Option String
  value : Option Int
  units : Option String
deriving DecidableEq, Repr

/-- One simplified component (lines 228-232). -/
structure SimpleComponent where
  smiles : Option String
  role : String
  amount : SimpleAmountInfo
deriving DecidableEq, Repr

/-- One simplified input tab (line 234). -/
structure SimpleInput where
  tab : String
  components : List SimpleComponent
deriving DecidableEq, Repr

/-- One simplified outcome (lines 243-246). -/
structure SimpleOutcome where
  smiles : Option String
  is_desired : Bool
deriving DecidableEq, Repr

/-- The simplified canonical record. -/
structure SimplifiedRecord where
  reaction_id : Option String
  inputs : List SimpleInput
  outcomes : List SimpleOutcome
deriving DecidableEq, Repr

/-- Lines 214-217 and 239-242: the value of the first identifier whose raw
type code equals `2` (the SMILES code), else `None`. -/
def firstSmiles (ids : List Identifier) : Option String :=
  match ids.find? (fun ident => ident.type == some 2) with
  | some ident => ident.value
  | none => none

/-- Lines 220-226: the simplified amount checks `moles` then `volume` only;
`mass` is never surfaced, a volume amount gets the constant units string
`'LITER'`, and a moles amount carries no units key. -/
def simpleAmountOf (amount : Option AmountObj) : SimpleAmountInfo :=
  match amount with
  | none => ⟨none, none, none⟩
  | some amt =>
    match amt.moles with
    | some m => ⟨some "moles", m.value, none⟩
    | none =>
      match amt.volume with
      | some m => ⟨some "volume", m.value, some "LITER"⟩
      | none => ⟨none, none, none⟩

/-- Lines 212-232: build one simplified component. -/
def simpleComponentOf (comp : RawComponent) : SimpleComponent :=
  { smiles := firstSmiles comp.identifiersList
    role := roleNameOpt comp.reactionRole
    amount := simpleAmountOf comp.amount }

/-- `simplify_reaction_data` (lines 195-248): `None` for a falsy record or
an absent `'data'` key, otherwise the simplified record. -/
def simplify_reaction_data (raw_reaction : Option RawReaction) : Option SimplifiedRecord :=
  match raw_reaction with
  | none => none
  | some r =>
    match r.data with
    | none => none
    | some data =>
      some
        { reaction_id := data.reactionId
          inputs :=
            data.inputsMap.map fun p =>
              { tab := p.1, components := p.2.componentsList.map simpleComponentOf }
          outcomes :=
            data.outcomesList.flatMap fun outcome =>
              outcome.productsList.map fun product =>
                { smiles := firstSmiles product.identifiersList
                  is_desired := product.isDesiredProduct.getD false } }

/-! ## `get_reaction_ids` ID collection (lines 373-386) -/

/-- `href.split('/')[-1]`. -/
def lastSegment (href : String) : String :=
  (href.splitOn "/").getLastD ""

/-- The collection loop of `get_reaction_ids` (lines 373-381): for each link
href, take the last path segment and append it when it starts with
`'ord-'` and is not already collected. -/
def collect_reaction_ids (hrefs : List String) : List String :=
  hrefs.foldl
    (fun reaction_ids href =>
      let rid := lastSegment href
      if rid.startsWith "ord-" && !(reaction_ids.contains rid) then
        reaction_ids ++ [rid]
      else
        reaction_ids)
    []

/-! ## `process_dataset` (lines 446-498) and the output filter of `main`
(lines 670-683)

The network side of `scrape_reaction` is a collaborator; its per-item
result dict `{'reaction_id', 'data', 'success'}` is the input of the
processing loop. -/

/-- Result of one `scrape_reaction` call: `data` is the parsed JSON on
success and `None` (here `none`) on failure. -/
structure ScrapeResult where
  reaction_id : String
  data : Option ReactionData
  success : Bool
deriving DecidableEq, Repr

/-- The transformer output stored under `'formatted_data'`; the two
formats produce different shapes, so the stored value is a tagged union. -/
inductive FormattedData where
  | detailed (rec : Option DetailedRecord)
  | simplified (rec : Option SimplifiedRecord)
deriving DecidableEq, Repr

/-- One entry of a dataset's `reactions` list after the processing loop:
the scrape result, plus the `'formatted_data'` key when it was added
(`none` = key absent, i.e. the transformer was never run). -/
structure ProcessedReaction where
  base : ScrapeResult
  formatted_data : Option FormattedData
deriving DecidableEq, Repr

/-- The scrape result dict is itself passed to the transformer as
`raw_reaction` (lines 470-472); only its `data` and `success` keys are
read there. -/
def rawOfScrape (r : ScrapeResult) : RawReaction :=
  { data := r.data, success := some r.success }

/-- The body of the processing loop (lines 462-477): the transformer runs
only inside the `if result['success']` branch. -/
def processOne (use_simple_format : Bool) (r : ScrapeResult) : ProcessedReaction :=
  { base := r
    formatted_data :=
      if r.success then
        some
          (if use_simple_format then
            .simplified (simplify_reaction_data (some (rawOfScrape r)))
          else
            .detailed (transform_reaction_data (some (rawOfScrape r))))
      else
        none }

/-- The `CollectionResult` shape returned by `process_dataset`. -/
structure DatasetResult where
  dataset_id : String
  reactions : List ProcessedReaction
  total_reactions : Nat
  successful_scrapes : Nat
deriving DecidableEq, Repr

/-- `process_dataset` (lines 446-498), with the scrape outcomes of the
collection's items given as input: every result (failed or not) is
appended to `reactions`; `successful_scrapes` counts the `success`
flags. -/
def process_dataset (dataset_id : String) (use_simple_format : Bool)
    (scraped : List ScrapeResult) : DatasetResult :=
  let reactions := scraped.map (processOne use_simple_format)
  { dataset_id := dataset_id
    reactions := reactions
    total_reactions := reactions.length
    successful_scrapes := (reactions.filter (fun r => r.base.success)).length }

/-- The per-dataset record list of `main`'s output document (lines 678-682):
`r['formatted_data'] for r in reactions if r.get('success') and
'formatted_data' in r`. -/
def outputRecords (d : DatasetResult) : List FormattedData :=
  d.reactions.filterMap fun r =>
    if r.base.success then r.formatted_data else none

/-! ## The archive Pagination Walker: `CRDzeus.py`, `mine_paper_data`
(lines 110-196)

The rendered site is a collaborator: a `page` map from URL to the links
the Page Extractor finds on it (`none` = page-load timeout, line 136-140),
and `fetchDetail`, the result of `fetch_reaction_data` per detail URL
(`none` = failed fetch).  The payload type of a fetched reaction record is
opaque to the walker, hence a type parameter. -/

/-- The links extracted from one rendered listing page: `detailLinks` are
the hrefs of the `Details` anchors (line 143-149), `navLinks` the hrefs of
the `Next`/`>` navigation anchors (line 164). -/
structure ArchivePage where
  detailLinks : List String
  navLinks : List String
deriving DecidableEq, Repr

/-- The site collaborator of one paper walk. -/
structure ArchiveSite (Item : Type) where
  page : String → Option ArchivePage
  fetchDetail : String → Option Item

/-- Python `"start" in href`. -/
def strContains (s pat : String) : Bool :=
  decide (pat.data <:+: s.data)

/-- Why `mine_paper_data`'s while-loop stopped (the `break` sites). -/
inductive StopReason where
  | loopDetected
  | loadTimeout
  | stagnation
  | emptyPage
  | limitReached
  | noNext
deriving DecidableEq, Repr

/-- Lines 162-170: the first navigation href that contains `"start"` and is
not an already-visited page URL. -/
def nextPageOf (pg : ArchivePage) (visited_pages : List String) : Option String :=
  pg.navLinks.find? fun href => strContains href "start" && !(visited_pages.contains href)

/-- The while-loop of `mine_paper_data` (lines 126-191), in state-passing
form; `fuel` bounds the number of iterations and `none` means the bound
was exhausted (the proofs below show enough fuel always exists).  Per
iteration, in source order: loop guard on `visited_pages` (128-131), page
load (133-140), stagnation guard (151-155), empty-page guard (157-159),
next-page search (162-170), detail fetching with `scanned_count` counting
successful fetches only (176-180), the 200-entry limit guard (182-184),
and the missing-next guard (186-190). -/
def mine_paper_aux {Item : Type} (site : ArchiveSite Item) :
    Nat → String → List String → List String → Nat → List Item →
    Option (List Item × StopReason)
  | 0, _, _, _, _, _ => none
  | fuel + 1, current_url, visited_pages, previous_detail_links,
      scanned_count, extracted_reactions =>
    if current_url ∈ visited_pages then
      some (extracted_reactions, .loopDetected)
    else
      let visited_pages := current_url :: visited_pages
      match site.page current_url with
      | none => some (extracted_reactions, .loadTimeout)
      | some pg =>
        if pg.detailLinks = previous_detail_links then
          some (extracted_reactions, .stagnation)
        else if pg.detailLinks = [] then
          some (extracted_reactions, .emptyPage)
        else
          let next_page := nextPageOf pg visited_pages
          let fetched := pg.detailLinks.filterMap site.fetchDetail
          let extracted_reactions := extracted_reactions ++ fetched
          let scanned_count := scanned_count + fetched.length
          if scanned_count > 200 then
            some (extracted_reactions, .limitReached)
          else
            match next_page with
            | none => some (extracted_reactions, .noNext)
            | some n =>
              mine_paper_aux site fuel n visited_pages pg.detailLinks
                scanned_count extracted_reactions

/-- `mine_paper_data` for one paper: the walk starts at the paper URL with
empty visited set, empty previous links, zero count and no reactions
(lines 112-124). -/
def mine_paper_data {Item : Type} (site : ArchiveSite Item) (fuel : Nat)
    (url : String) : Option (List Item × StopReason) :=
  mine_paper_aux site fuel url [] [] 0 []

/-! ## Claims about the Field Mapper and the transforms -/

/-- An association-list lookup misses exactly the codes absent from the
table's key column. -/
theorem lookup_eq_none_iff {α β : Type} [BEq α] [LawfulBEq α]
    (l : List (α × β)) (c : α) : l.lookup c = none ↔ c ∉ l.map Prod.fst := by
  induction l with
  | nil => simp
  | cons p t ih =>
    obtain ⟨k, v⟩ := p
    by_cases hk : c == k
    · simp [List.lookup, hk, eq_of_beq hk]
    · simp only [List.lookup, hk]
      rw [ih]
      simp only [List.map_cons, List.mem_cons]
      have hne : ¬(c = k) := fun he => by simp [he] at hk
      tauto

/-- Claim C5: the Field Mapper functions are total over the integers and
return exactly the documented canonical strings on the tables' domains
(role codes 0-10, identifier-type codes 0-8, unit codes 0-4 per quantity
kind), and `"UNKNOWN"` for every integer code outside a table's domain.
Totality (never raising) is structural: `roleName`, `identifierTypeName`
and `unitName` are total Lean functions. -/
theorem C5_field_mapper_total :
    (roleName 0 = "UNSPECIFIED" ∧ roleName 1 = "REACTANT" ∧ roleName 2 = "REAGENT" ∧
      roleName 3 = "SOLVENT" ∧ roleName 4 = "CATALYST" ∧ roleName 5 = "WORKUP" ∧
      roleName 6 = "INTERNAL_STANDARD" ∧ roleName 7 = "AUTHENTIC_STANDARD" ∧
      roleName 8 = "PRODUCT" ∧ roleName 9 = "BYPRODUCT" ∧ roleName 10 = "SIDE_PRODUCT" ∧
      identifierTypeName 0 = "UNSPECIFIED" ∧ identifierTypeName 1 = "CUSTOM" ∧
      identifierTypeName 2 = "SMILES" ∧ identifierTypeName 3 = "INCHI" ∧
      identifierTypeName 4 = "MOLBLOCK" ∧ identifierTypeName 5 = "FINGERPRINT" ∧
      identifierTypeName 6 = "NAME" ∧ identifierTypeName 7 = "IUPAC_NAME" ∧
      identifierTypeName 8 = "CAS_NUMBER" ∧
      unitName .mass 0 = "UNSPECIFIED" ∧ unitName .mass 1 = "KILOGRAM" ∧
      unitName .mass 2 = "GRAM" ∧ unitName .mass 3 = "MILLIGRAM" ∧
      unitName .mass 4 = "MICROGRAM" ∧
      unitName .volume 0 = "UNSPECIFIED" ∧ unitName .volume 1 = "LITER" ∧
      unitName .volume 2 = "MILLILITER" ∧ unitName .volume 3 = "MICROLITER" ∧
      unitName .volume 4 = "NANOLITER" ∧
      unitName .moles 0 = "UNSPECIFIED" ∧ unitName .moles 1 = "MOLE" ∧
      unitName .moles 2 = "MILLIMOLE" ∧ unitName .moles 3 = "MICROMOLE" ∧
      unitName .moles 4 = "NANOMOLE") ∧
    (∀ c : Int, c < 0 ∨ 10 < c → roleName c = "UNKNOWN") ∧
    (∀ c : Int, c < 0 ∨ 8 < c → identifierTypeName c = "UNKNOWN") ∧
    (∀ (k : QtyKind) (c : Int), c < 0 ∨ 4 < c → unitName k c = "UNKNOWN") := by
  refine ⟨by decide, ?_, ?_, ?_⟩
  · intro c h
    unfold roleName
    rw [(lookup_eq_none_iff COMPONENT_ROLES c).2 (by
      simp only [COMPONENT_ROLES, List.map_cons, List.map_nil, List.mem_cons,
        List.not_mem_nil, or_false]
      omega)]
    rfl
  · intro c h
    unfold identifierTypeName
    rw [(lookup_eq_none_iff IDENTIFIER_TYPES c).2 (by
      simp only [IDENTIFIER_TYPES, List.map_cons, List.map_nil, List.mem_cons,
        List.not_mem_nil, or_false]
      omega)]
    rfl
  · intro k c h
    cases k <;>
      (simp only [unitName, MEASUREMENT_UNITS]
       rw [(lookup_eq_none_iff _ c).2 (by
         simp only [List.map_cons, List.map_nil, List.mem_cons,
           List.not_mem_nil, or_false]
         omega)]
       rfl)

/-- Concrete instances of `C5_field_mapper_total`'s out-of-domain clauses:
role code 11, identifier-type code 9 and mass unit code 5 all resolve to
`"UNKNOWN"`. -/
theorem C5_field_mapper_total_witness :
    roleName 11 = "UNKNOWN" ∧ identifierTypeName 9 = "UNKNOWN" ∧
      unitName .mass 5 = "UNKNOWN" :=
  ⟨C5_field_mapper_total.2.1 11 (Or.inr (by decide)),
   C5_field_mapper_total.2.2.1 9 (Or.inr (by decide)),
   C5_field_mapper_total.2.2.2 .mass 5 (Or.inr (by decide))⟩

/-- Claim C6: `parse_amount` emits at most one quantity kind (structural in
`ParsedAmount`: each value of the type holds at most one kind), the first
present in the fixed priority order moles, volume, mass — so when moles
and volume (or volume and mass) co-occur only the higher-priority kind is
emitted — and an empty or absent amount yields the empty amount dict. -/
theorem C6_parse_amount_priority :
    (parse_amount none = .empty) ∧
    (∀ a : AmountObj, a.moles = none → a.volume = none → a.mass = none →
      parse_amount (some a) = .empty) ∧
    (∀ (a : AmountObj) (m : Measurement), a.moles = some m →
      parse_amount (some a) = .moles m.value (unitName .moles (m.units.getD 0))) ∧
    (∀ (a : AmountObj) (m : Measurement), a.moles = none → a.volume = some m →
      parse_amount (some a) = .volume m.value (unitName .volume (m.units.getD 0))) ∧
    (∀ (a : AmountObj) (m : Measurement), a.moles = none → a.volume = none →
      a.mass = some m →
      parse_amount (some a) = .mass m.value (unitName .mass (m.units.getD 0))) := by
  refine ⟨rfl, ?_, ?_, ?_, ?_⟩
  · intro a h1 h2 h3; simp [parse_amount, h1, h2, h3]
  · intro a m h1; simp [parse_amount, h1]
  · intro a m h1 h2; simp [parse_amount, h1, h2]
  · intro a m h1 h2 h3; simp [parse_amount, h1, h2, h3]

/-- Concrete instance of `C6_parse_amount_priority`: in an amount where
moles (code 1, `MOLE`) and volume (code 2, `MILLILITER`) co-occur, only
the moles kind is emitted. -/
theorem C6_parse_amount_priority_witness :
    parse_amount (some ⟨some ⟨some 7, some 1⟩, some ⟨some 9, some 2⟩, none⟩) =
      .moles (some 7) "MOLE" :=
  C6_parse_amount_priority.2.2.1 ⟨some ⟨some 7, some 1⟩, some ⟨some 9, some 2⟩, none⟩
    ⟨some 7, some 1⟩ rfl

/-- Claim C9: both transforms return `None` (here `none`) for an
empty/`None` input and for an input lacking the `'data'` root key, for
any value of the `success` key; neither raises (both are total Lean
functions). -/
theorem C9_missing_data_key :
    (transform_reaction_data none = none) ∧
    (simplify_reaction_data none = none) ∧
    (∀ s : Option Bool, transform_reaction_data (some ⟨none, s⟩) = none) ∧
    (∀ s : Option Bool, simplify_reaction_data (some ⟨none, s⟩) = none) :=
  ⟨rfl, rfl, fun _ => rfl, fun _ => rfl⟩

/-- Claim C10 (implicit): in the simplified transform, a component amount
with no `moles` key but a `volume` key is emitted with the constant units
string `"LITER"` whatever the raw units code was, and a moles amount is
emitted with a value but no units key (`units := none`). -/
theorem C10_simplified_units :
    ∀ (comp : RawComponent) (amt : AmountObj) (m : Measurement),
      (comp.amount = some amt → amt.moles = none → amt.volume = some m →
        (simpleComponentOf comp).amount = ⟨some "volume", m.value, some "LITER"⟩) ∧
      (comp.amount = some amt → amt.moles = some m →
        (simpleComponentOf comp).amount = ⟨some "moles", m.value, none⟩) := by
  intro comp amt m
  constructor
  · intro h1 h2 h3; simp [simpleComponentOf, simpleAmountOf, h1, h2, h3]
  · intro h1 h2; simp [simpleComponentOf, simpleAmountOf, h1, h2]

/-- Concrete instances of `C10_simplified_units`: a volume measurement
whose raw units code is 3 (`MICROLITER` in the units table) is still
emitted with units `"LITER"`, and a moles amount has no units key. -/
theorem C10_simplified_units_witness :
    (simpleComponentOf ⟨[], some ⟨none, some ⟨some 5, some 3⟩, none⟩, none⟩).amount =
      ⟨some "volume", some 5, some "LITER"⟩ ∧
    (simpleComponentOf ⟨[], some ⟨some ⟨some 4, some 2⟩, none, none⟩, none⟩).amount =
      ⟨some "moles", some 4, none⟩ :=
  ⟨(C10_simplified_units ⟨[], some ⟨none, some ⟨some 5, some 3⟩, none⟩, none⟩
      ⟨none, some ⟨some 5, some 3⟩, none⟩ ⟨some 5, some 3⟩).1 rfl rfl rfl,
   (C10_simplified_units ⟨[], some ⟨some ⟨some 4, some 2⟩, none, none⟩, none⟩
      ⟨some ⟨some 4, some 2⟩, none, none⟩ ⟨some 4, some 2⟩).2 rfl rfl⟩

/-- The literal raw fixture of spec §8: one input tab `"A"` with one
component (a type-2 `"CCO"` identifier, role code 1, no amount) and one
outcome product (a type-2 `"CC"` identifier, desired). -/
def fixtureData : ReactionData :=
  { reactionId := some "rx1"
    inputsMap := [("A", ⟨[⟨[⟨some 2, some "CCO"⟩], none, some 1⟩]⟩)]
    outcomesList := [⟨[⟨[⟨some 2, some "CC"⟩], some true, []⟩]⟩] }

/-- The fixture wrapped as a raw record with a `'data'` key. -/
def fixtureRaw : RawReaction := ⟨some fixtureData, none⟩

/-- Claim C7: the simplified transform surfaces only moles-then-volume
amounts (a mass-only amount yields the empty amount dict), resolves
SMILES as the value of the first identifier with type code 2, emits the
component with a null SMILES (rather than dropping it) when no type-2
identifier exists, and on the §8 fixture yields
`inputs[0].components[0].smiles = "CCO"` and `outcomes[0].smiles = "CC"`
(read off the literal output record in the last conjunct). -/
theorem C7_simplified_transform :
    (∀ amt : AmountObj, amt.moles = none → amt.volume = none →
      simpleAmountOf (some amt) = ⟨none, none, none⟩) ∧
    (∀ (pre post : List Identifier) (ident : Identifier),
      (∀ j ∈ pre, j.type ≠ some 2) → ident.type = some 2 →
      firstSmiles (pre ++ ident :: post) = ident.value) ∧
    (∀ comp : RawComponent, (∀ j ∈ comp.identifiersList, j.type ≠ some 2) →
      (simpleComponentOf comp).smiles = none) ∧
    (∀ (data : ReactionData) (s : Option Bool),
      (simplify_reaction_data (some ⟨some data, s⟩)).map
          (fun rec => rec.inputs.map fun i => i.components.length) =
        some (data.inputsMap.map fun p => p.2.componentsList.length)) ∧
    (simplify_reaction_data (some fixtureRaw) =
      some ⟨some "rx1", [⟨"A", [⟨some "CCO", "REACTANT", ⟨none, none, none⟩⟩]⟩],
        [⟨some "CC", true⟩]⟩) := by
  refine ⟨?_, ?_, ?_, ?_, by rfl⟩
  · intro amt h1 h2
    simp [simpleAmountOf, h1, h2]
  · intro pre post ident hpre hty
    have h1 : pre.find? (fun i => i.type == some 2) = none :=
      List.find?_eq_none.2 fun x hx => by simp [hpre x hx]
    have h2 : (pre ++ ident :: post).find? (fun i => i.type == some 2) = some ident := by
      rw [List.find?_append, h1, Option.none_or, List.find?_cons_of_pos _ (by simp [hty])]
    simp [firstSmiles, h2]
  · intro comp h
    have h1 : comp.identifiersList.find? (fun i => i.type == some 2) = none :=
      List.find?_eq_none.2 fun x hx => by simp [h x hx]
    simp [simpleComponentOf, firstSmiles, h1]
  · intro data s
    simp [simplify_reaction_data]

/-- Concrete instances of `C7_simplified_transform`: a mass-only amount
yields the empty simplified amount; a type-2 identifier after a type-6
one is the SMILES source; a component with only a type-6 identifier is
emitted with a null SMILES; and the fixture's one input tab keeps its one
component. -/
theorem C7_simplified_transform_witness :
    simpleAmountOf (some ⟨none, none, some ⟨some 3, some 2⟩⟩) = ⟨none, none, none⟩ ∧
    firstSmiles [⟨some 6, some "ethanol"⟩, ⟨some 2, some "CCO"⟩] = some "CCO" ∧
    (simpleComponentOf ⟨[⟨some 6, some "ethanol"⟩], none, some 1⟩).smiles = none ∧
    (simplify_reaction_data (some ⟨some fixtureData, none⟩)).map
        (fun rec => rec.inputs.map fun i => i.components.length) = some [1] :=
  ⟨C7_simplified_transform.1 ⟨none, none, some ⟨some 3, some 2⟩⟩ rfl rfl,
   C7_simplified_transform.2.1 [⟨some 6, some "ethanol"⟩] [] ⟨some 2, some "CCO"⟩
     (by decide) rfl,
   C7_simplified_transform.2.2.1 ⟨[⟨some 6, some "ethanol"⟩], none, some 1⟩ (by decide),
   C7_simplified_transform.2.2.2.1 fixtureData none⟩

/-- Claim C8: in `process_dataset`, a failed scrape never gets a
`'formatted_data'` key (the transformer is never run on it), every scrape
counts as an attempt (`total_reactions` is the full item count),
`successful_scrapes` counts exactly the successful ones, and the output
document's record list is exactly the transformed successful records in
order. -/
theorem C8_failed_fetch_excluded :
    ∀ (did : String) (use_simple : Bool) (scraped : List ScrapeResult),
      (∀ r ∈ (process_dataset did use_simple scraped).reactions,
        r.base.success = false → r.formatted_data = none) ∧
      (process_dataset did use_simple scraped).total_reactions = scraped.length ∧
      (process_dataset did use_simple scraped).successful_scrapes =
        (scraped.filter (fun r => r.success)).length ∧
      outputRecords (process_dataset did use_simple scraped) =
        (scraped.filter (fun r => r.success)).map (fun r =>
          if use_simple then
            .simplified (simplify_reaction_data (some (rawOfScrape r)))
          else
            .detailed (transform_reaction_data (some (rawOfScrape r)))) := by
  intro did use_simple scraped
  refine ⟨?_, ?_, ?_, ?_⟩
  · intro r hr hfail
    have hr' : r ∈ scraped.map (processOne use_simple) := hr
    obtain ⟨s, _, rfl⟩ := List.mem_map.1 hr'
    have hs : s.success = false := hfail
    simp [processOne, hs]
  · simp [process_dataset]
  · show ((scraped.map (processOne use_simple)).filter _).length = _
    rw [List.filter_map, List.length_map]
    rfl
  · show (scraped.map (processOne use_simple)).filterMap _ = _
    induction scraped with
    | nil => rfl
    | cons s t ih =>
      by_cases hs : s.success <;>
        simp [List.filterMap_cons, List.filter_cons, processOne, hs, ih]

/-- A 5-item collection whose items 2, 3 and 5 failed to fetch. -/
def c8scraped : List ScrapeResult :=
  [⟨"r1", some ⟨none, [], []⟩, true⟩,
   ⟨"r2", none, false⟩,
   ⟨"r3", none, false⟩,
   ⟨"r4", some ⟨none, [], []⟩, true⟩,
   ⟨"r5", none, false⟩]

/-- Concrete instance of `C8_failed_fetch_excluded`: with 3 of 5 items
failing, `successful_scrapes = 2`, all 5 count as attempts, the output
record list holds exactly the 2 transformed successful records, and the
failed item `"r2"` carries no `'formatted_data'`. -/
theorem C8_failed_fetch_excluded_witness :
    (process_dataset "ds1" false c8scraped).successful_scrapes = 2 ∧
    (process_dataset "ds1" false c8scraped).total_reactions = 5 ∧
    outputRecords (process_dataset "ds1" false c8scraped) =
      [.detailed (some ⟨none, true, [], []⟩), .detailed (some ⟨none, true, [], []⟩)] ∧
    (⟨⟨"r2", none, false⟩, none⟩ : ProcessedReaction).formatted_data = none := by
  have h := C8_failed_fetch_excluded "ds1" false c8scraped
  refine ⟨?_, h.2.1.trans (by decide), ?_, ?_⟩
  · rw [h.2.2.1]; decide
  · rw [h.2.2.2]; decide
  · exact h.1 ⟨⟨"r2", none, false⟩, none⟩ (by decide) rfl

/-! ## Claims about the archive Pagination Walker -/

/-- One walk iteration whose next-page search comes up empty stops at this
page with all its fetched items appended: `.limitReached` when the page
pushed the count over 200, `.noNext` otherwise.  (Helper shared by the
loop-guard and deduplication analyses.) -/
theorem mine_paper_aux_step_noNext {Item : Type} (site : ArchiveSite Item)
    (fuel : Nat) (current : String) (visited prev : List String) (count : Nat)
    (acc : List Item) (pg : ArchivePage) (hcv : current ∉ visited)
    (hpg : site.page current = some pg) (hstag : pg.detailLinks ≠ prev)
    (hemp : pg.detailLinks ≠ [])
    (hnp : nextPageOf pg (current :: visited) = none) :
    mine_paper_aux site (fuel + 1) current visited prev count acc =
      some (acc ++ pg.detailLinks.filterMap site.fetchDetail,
        if count + (pg.detailLinks.filterMap site.fetchDetail).length > 200 then
          .limitReached else .noNext) := by
  rw [mine_paper_aux, if_neg hcv, hpg]
  dsimp only
  rw [if_neg hstag, if_neg hemp, hnp]
  by_cases hlim : count + (List.filterMap site.fetchDetail pg.detailLinks).length > 200
  · simp only [if_pos hlim]
  · simp only [if_neg hlim]

/-- With enough fuel relative to the finite URL universe, the walk always
returns (the `visited_pages` set grows strictly each iteration).  Helper
for the loop-guard claim. -/
theorem mine_paper_aux_isSome_of_enough_fuel {Item : Type} (site : ArchiveSite Item)
    (U : List String)
    (hnav : ∀ u pg, site.page u = some pg → ∀ h ∈ pg.navLinks, h ∈ U) :
    ∀ (fuel : Nat) (current : String) (visited prev : List String) (count : Nat)
      (acc : List Item), current ∈ U → visited.Nodup → visited ⊆ U →
      U.length < fuel + visited.length →
      (mine_paper_aux site fuel current visited prev count acc).isSome := by
  intro fuel
  induction fuel with
  | zero =>
    intro current visited prev count acc hcu hnd hsub hlen
    exact absurd (hnd.subperm hsub).length_le (by omega)
  | succ fuel ih =>
    intro current visited prev count acc hcu hnd hsub hlen
    rw [mine_paper_aux]
    by_cases hcv : current ∈ visited
    · simp [hcv]
    · rw [if_neg hcv]
      cases hpg : site.page current with
      | none => simp
      | some pg =>
        dsimp only
        by_cases hstag : pg.detailLinks = prev
        · rw [if_pos hstag]; rfl
        · rw [if_neg hstag]
          by_cases hemp : pg.detailLinks = []
          · rw [if_pos hemp]; rfl
          · rw [if_neg hemp]
            by_cases hlim : count + (List.filterMap site.fetchDetail pg.detailLinks).length > 200
            · rw [if_pos hlim]; rfl
            · rw [if_neg hlim]
              cases hnp : nextPageOf pg (current :: visited) with
              | none => rfl
              | some n =>
                have hnU : n ∈ U :=
                  hnav current pg hpg n (List.mem_of_find?_eq_some hnp)
                have hnd' : (current :: visited).Nodup := List.nodup_cons.2 ⟨hcv, hnd⟩
                have hsub' : (current :: visited) ⊆ U := List.cons_subset.2 ⟨hcu, hsub⟩
                exact ih n (current :: visited) pg.detailLinks
                  (count + (List.filterMap site.fetchDetail pg.detailLinks).length)
                  (acc ++ List.filterMap site.fetchDetail pg.detailLinks)
                  hnU hnd' hsub' (by simp only [List.length_cons]; omega)

/-- Claim C3: the walker never loops indefinitely over a finite set of page
URLs — with fuel exceeding the universe size the walk returns — at a
page where every `Next` candidate either lacks `"start"` or points back
to a visited URL (in particular when the next link is absent), the walk
stops at that very page (zero extra steps), and a current URL already in
`visited_pages` stops immediately with `.loopDetected` (one extra step
after reaching a visited URL, were such a continuation ever taken). -/
theorem C3_loop_guard {Item : Type} (site : ArchiveSite Item) :
    (∀ U : List String,
      (∀ u pg, site.page u = some pg → ∀ h ∈ pg.navLinks, h ∈ U) →
      ∀ (fuel : Nat) (url : String), url ∈ U → U.length < fuel →
        (mine_paper_data site fuel url).isSome) ∧
    (∀ (fuel : Nat) (current : String) (visited prev : List String) (count : Nat)
      (acc : List Item) (pg : ArchivePage), current ∉ visited →
      site.page current = some pg → pg.detailLinks ≠ prev → pg.detailLinks ≠ [] →
      (∀ h ∈ pg.navLinks, strContains h "start" = true → h ∈ current :: visited) →
      mine_paper_aux site (fuel + 1) current visited prev count acc =
        some (acc ++ pg.detailLinks.filterMap site.fetchDetail,
          if count + (pg.detailLinks.filterMap site.fetchDetail).length > 200 then
            .limitReached else .noNext)) ∧
    (∀ (fuel : Nat) (current : String) (visited prev : List String) (count : Nat)
      (acc : List Item), current ∈ visited →
      mine_paper_aux site (fuel + 1) current visited prev count acc =
        some (acc, .loopDetected)) := by
  refine ⟨?_, ?_, ?_⟩
  · intro U hnav fuel url hu hfuel
    exact mine_paper_aux_isSome_of_enough_fuel site U hnav fuel url [] [] 0 []
      hu List.nodup_nil (by intro x hx; cases hx) (by omega)
  · intro fuel current visited prev count acc pg hcv hpg hstag hemp hvis
    have hnp : nextPageOf pg (current :: visited) = none := by
      refine List.find?_eq_none.2 fun x hx => ?_
      by_cases hs : strContains x "start"
      · simp [hs, hvis x hx hs]
      · simp [hs]
    exact mine_paper_aux_step_noNext site fuel current visited prev count acc pg
      hcv hpg hstag hemp hnp
  · intro fuel current visited prev count acc hcv
    rw [mine_paper_aux, if_pos hcv]

/-- A one-page site whose only `Next` candidate contains `"start"` but
points back to the page itself. -/
def c3wsite : ArchiveSite String :=
  { page := fun u => if u = "pstart9" then some ⟨["d9"], ["pstart9"]⟩ else none
    fetchDetail := fun u => some u }

/-- Concrete instance of `C3_loop_guard`: on `c3wsite` (URL universe of
size 1) the walk returns with fuel 2, and the page whose sole next
candidate is itself stops immediately with its one item. -/
theorem C3_loop_guard_witness :
    (mine_paper_data c3wsite 2 "pstart9").isSome = true ∧
    mine_paper_aux c3wsite 1 "pstart9" [] [] 0 [] = some (["d9"], .noNext) ∧
    mine_paper_aux c3wsite 1 "pstart9" ["pstart9"] [] 0 [] =
      some (([] : List String), .loopDetected) := by
  refine ⟨?_, ?_, (C3_loop_guard c3wsite).2.2 0 "pstart9" ["pstart9"] [] 0 []
    (by decide)⟩
  · refine (C3_loop_guard c3wsite).1 ["pstart9"] ?_ 2 "pstart9" (by decide) (by decide)
    intro u pg hpg h hmem
    by_cases hu : u = "pstart9"
    · subst hu
      simp only [c3wsite, reduceIte, Option.some.injEq] at hpg
      subst hpg
      simpa using hmem
    · simp [c3wsite, hu] at hpg
  · have h := (C3_loop_guard c3wsite).2.1 0 "pstart9" [] [] 0 [] ⟨["d9"], ["pstart9"]⟩
      (by decide) rfl (by decide) (by decide) (by decide)
    simpa using h

/-- Claim C4: a page whose extracted `detail_links` equal the previous
page's (full-sequence equality) stops the walk with `.stagnation` before
any of its links are fetched: the accumulated result is returned
unchanged, retaining only earlier pages' items.  Quantified over every
reachable walker state. -/
theorem C4_stagnation_guard {Item : Type} (site : ArchiveSite Item) (fuel : Nat)
    (current : String) (visited prev : List String) (count : Nat) (acc : List Item)
    (pg : ArchivePage) (hcv : current ∉ visited) (hpg : site.page current = some pg)
    (hstag : pg.detailLinks = prev) :
    mine_paper_aux site (fuel + 1) current visited prev count acc =
      some (acc, .stagnation) := by
  rw [mine_paper_aux, if_neg hcv, hpg]
  simp [hstag]

/-- A two-page site serving identical `detail_links` on both pages. -/
def c4wsite : ArchiveSite String :=
  { page := fun u =>
      if u = "q1" then some ⟨["dC"], ["qstart2"]⟩
      else if u = "qstart2" then some ⟨["dC"], []⟩
      else none
    fetchDetail := fun u => some u }

/-- Concrete instance of `C4_stagnation_guard`: the second page of
`c4wsite` repeats `["dC"]`, so the walk state after page 1 stops with
`.stagnation`, keeping only page 1's item. -/
theorem C4_stagnation_guard_witness :
    mine_paper_aux c4wsite 1 "qstart2" ["q1"] ["dC"] 1 ["dC"] =
      some (["dC"], .stagnation) :=
  C4_stagnation_guard c4wsite 0 "qstart2" ["q1"] ["dC"] 1 ["dC"] ⟨["dC"], []⟩
    (by decide) rfl rfl

/-- A detail-link URL per index. -/
def dlink (i : Nat) : String := "d" ++ toString i

/-- A three-page site serving 100 fresh detail links per page, all fetches
succeeding. -/
def c1site : ArchiveSite String :=
  { page := fun u =>
      if u = "pstart1" then some ⟨(List.range 100).map dlink, ["pstart2"]⟩
      else if u = "pstart2" then some ⟨(List.range' 100 100).map dlink, ["pstart3"]⟩
      else if u = "pstart3" then some ⟨(List.range' 200 100).map dlink, []⟩
      else none
    fetchDetail := fun u => some u }

set_option maxRecDepth 10000 in
/-- Counterexample to claim C1 as stated: on `c1site` the walk accumulates
all 300 items — after page 2 the count is exactly 200, `200 > 200` fails,
page 3 is still processed in full — so accumulation neither stops exactly
at 200 nor stays within 200 entries. -/
theorem C1_cap_counterexample :
    mine_paper_data c1site 4 "pstart1" =
      some ((List.range 300).map dlink, .limitReached) ∧
    200 < ((List.range 300).map dlink).length := by
  decide

/-- Once the running count enters a recursive call it is at most 200, so a
walk result exceeds `200 + B` for no per-page yield bound `B`; and a
result longer than 200 can only stem from the limit guard.  Helper for
the amended cap claim. -/
theorem mine_paper_aux_length_bound {Item : Type} (site : ArchiveSite Item) (B : Nat)
    (hB : ∀ u pg, site.page u = some pg →
      (pg.detailLinks.filterMap site.fetchDetail).length ≤ B) :
    ∀ (fuel : Nat) (current : String) (visited prev : List String) (count : Nat)
      (acc : List Item) (items : List Item) (reason : StopReason),
      acc.length = count → count ≤ 200 →
      mine_paper_aux site fuel current visited prev count acc = some (items, reason) →
      items.length ≤ 200 + B ∧ (200 < items.length → reason = .limitReached) := by
  intro fuel
  induction fuel with
  | zero =>
    intro current visited prev count acc items reason _ _ h
    exact absurd h (by rw [mine_paper_aux]; simp)
  | succ fuel ih =>
    intro current visited prev count acc items reason hlen hcap h
    rw [mine_paper_aux] at h
    by_cases hcv : current ∈ visited
    · rw [if_pos hcv] at h
      obtain ⟨rfl, rfl⟩ := Prod.mk.injEq .. ▸ Option.some.inj h
      exact ⟨by omega, by omega⟩
    · rw [if_neg hcv] at h
      cases hpg : site.page current with
      | none =>
        rw [hpg] at h
        dsimp only at h
        obtain ⟨rfl, rfl⟩ := Prod.mk.injEq .. ▸ Option.some.inj h
        exact ⟨by omega, by omega⟩
      | some pg =>
        rw [hpg] at h
        dsimp only at h
        have hfB := hB current pg hpg
        by_cases hstag : pg.detailLinks = prev
        · rw [if_pos hstag] at h
          obtain ⟨rfl, rfl⟩ := Prod.mk.injEq .. ▸ Option.some.inj h
          exact ⟨by omega, by omega⟩
        · rw [if_neg hstag] at h
          by_cases hemp : pg.detailLinks = []
          · rw [if_pos hemp] at h
            obtain ⟨rfl, rfl⟩ := Prod.mk.injEq .. ▸ Option.some.inj h
            exact ⟨by omega, by omega⟩
          · rw [if_neg hemp] at h
            by_cases hlim : count + (List.filterMap site.fetchDetail pg.detailLinks).length > 200
            · rw [if_pos hlim] at h
              obtain ⟨rfl, rfl⟩ := Prod.mk.injEq .. ▸ Option.some.inj h
              refine ⟨?_, fun _ => rfl⟩
              simp only [List.length_append]
              omega
            · rw [if_neg hlim] at h
              cases hnp : nextPageOf pg (current :: visited) with
              | none =>
                rw [hnp] at h
                dsimp only at h
                obtain ⟨rfl, rfl⟩ := Prod.mk.injEq .. ▸ Option.some.inj h
                constructor
                · simp only [List.length_append]; omega
                · intro hgt
                  exact absurd hgt (by simp only [List.length_append] at *; omega)
              | some n =>
                rw [hnp] at h
                dsimp only at h
                exact ih n (current :: visited) pg.detailLinks
                  (count + (List.filterMap site.fetchDetail pg.detailLinks).length)
                  (acc ++ List.filterMap site.fetchDetail pg.detailLinks) items reason
                  (by simp only [List.length_append]; omega) (by omega) h

/-- Claim C1 as amended: the 200-cap is checked only after a whole page is
processed (`scanned_count > 200`), so the walk stops at the end of the
first page that brings the count above 200; the accumulated sequence is
bounded by `200 + B` for any bound `B` on a page's successful yield (not
by 200), and a result beyond 200 entries always reports
`.limitReached`. -/
theorem C1_cap_amended {Item : Type} (site : ArchiveSite Item) (B : Nat)
    (hB : ∀ u pg, site.page u = some pg →
      (pg.detailLinks.filterMap site.fetchDetail).length ≤ B) :
    ∀ (fuel : Nat) (url : String) (items : List Item) (reason : StopReason),
      mine_paper_data site fuel url = some (items, reason) →
      items.length ≤ 200 + B ∧ (200 < items.length → reason = .limitReached) :=
  fun fuel url items reason h =>
    mine_paper_aux_length_bound site B hB fuel url [] [] 0 [] items reason rfl
      (by omega) h

/-- A one-page, one-link site with per-page yield bound 1. -/
def c1wsite : ArchiveSite String :=
  { page := fun u => if u = "w1" then some ⟨["dw"], []⟩ else none
    fetchDetail := fun u => some u }

/-- Concrete instance of `C1_cap_amended` on `c1wsite` with `B = 1`. -/
theorem C1_cap_amended_witness :
    mine_paper_data c1wsite 1 "w1" = some (["dw"], .noNext) ∧
    (["dw"] : List String).length ≤ 200 + 1 := by
  have hB : ∀ u pg, c1wsite.page u = some pg →
      (pg.detailLinks.filterMap c1wsite.fetchDetail).length ≤ 1 := by
    intro u pg hpg
    by_cases hu : u = "w1"
    · subst hu
      simp only [c1wsite, reduceIte, Option.some.injEq] at hpg
      subst hpg
      decide
    · simp [c1wsite, hu] at hpg
  have hwalk : mine_paper_data c1wsite 1 "w1" = some (["dw"], .noNext) := by decide
  exact ⟨hwalk, (C1_cap_amended c1wsite 1 hB 1 "w1" ["dw"] .noNext hwalk).1⟩

/-- A two-page site on which the detail URL `"dA"` appears on both listing
pages (page 2 additionally carries `"dB"`, so the stagnation guard does
not fire). -/
def c2site : ArchiveSite String :=
  { page := fun u =>
      if u = "p1" then some ⟨["dA"], ["start2"]⟩
      else if u = "start2" then some ⟨["dA", "dB"], []⟩
      else none
    fetchDetail := fun u => some u }

/-- Counterexample to claim C2 as stated: on `c2site` the archive walker
accumulates `"dA"` twice — `mine_paper_data` performs no per-URL
deduplication across listing pages. -/
theorem C2_dedup_counterexample :
    mine_paper_data c2site 3 "p1" = some (["dA", "dA", "dB"], .noNext) ∧
    (["dA", "dA", "dB"] : List String).count "dA" = 2 := by
  decide

/-- Claim C2 as amended: set semantics over URLs holds in the ORD dataset
walker — `collect_reaction_ids` never accumulates a duplicate ID — but
not in the archive walker, whose page step appends the page's entire
fetched list to the accumulator with no filtering against it: every
occurrence contributes, so the final multiplicity of a URL adds the
page's multiplicity to the accumulator's. -/
theorem C2_dedup_amended :
    (∀ hrefs : List String, (collect_reaction_ids hrefs).Nodup) ∧
    (∀ (site : ArchiveSite String) (fuel : Nat) (current : String)
      (visited prev : List String) (count : Nat) (acc : List String)
      (pg : ArchivePage), current ∉ visited → site.page current = some pg →
      pg.detailLinks ≠ prev → pg.detailLinks ≠ [] →
      ¬(count + (pg.detailLinks.filterMap site.fetchDetail).length > 200) →
      nextPageOf pg (current :: visited) = none →
      ∀ u : String,
        (mine_paper_aux site (fuel + 1) current visited prev count acc).map
            (fun r => r.1.count u) =
          some (acc.count u + (pg.detailLinks.filterMap site.fetchDetail).count u)) := by
  constructor
  · intro hrefs
    have key : ∀ (hs : List String) (acc : List String), acc.Nodup →
        (hs.foldl
          (fun reaction_ids href =>
            let rid := lastSegment href
            if rid.startsWith "ord-" && !(reaction_ids.contains rid) then
              reaction_ids ++ [rid]
            else
              reaction_ids)
          acc).Nodup := by
      intro hs
      induction hs with
      | nil => intro acc hacc; exact hacc
      | cons h t ih =>
        intro acc hacc
        simp only [List.foldl_cons]
        apply ih
        by_cases hc : (lastSegment h).startsWith "ord-" && !(acc.contains (lastSegment h))
        · simp only [hc, if_pos]
          have hnmem : lastSegment h ∉ acc := by
            rcases Bool.and_eq_true .. ▸ hc with ⟨-, hnc⟩
            simpa using hnc
          simp [List.nodup_append, hacc, hnmem]
        · simp only [hc, if_neg, Bool.false_eq_true, not_false_iff]
          exact hacc
    exact key hrefs [] List.nodup_nil
  · intro site fuel current visited prev count acc pg hcv hpg hstag hemp hlim hnp u
    rw [mine_paper_aux_step_noNext site fuel current visited prev count acc pg
      hcv hpg hstag hemp hnp]
    simp [if_neg hlim, List.count_append]

/-- Concrete instances of `C2_dedup_amended`: the ORD collector keeps one
copy of `ord-7`, while the archive step at page 2 of a walk whose
accumulator already holds `"dA"` yields multiplicity 2 for `"dA"`. -/
theorem C2_dedup_amended_witness :
    (collect_reaction_ids ["x/id/ord-7", "y/id/ord-7", "z/id/ord-8"]).Nodup ∧
    (mine_paper_aux c2site 1 "start2" ["p1"] ["dA"] 1 ["dA"]).map
        (fun r => r.1.count "dA") = some 2 := by
  constructor
  · exact C2_dedup_amended.1 ["x/id/ord-7", "y/id/ord-7", "z/id/ord-8"]
  · have h := C2_dedup_amended.2 c2site 0 "start2" ["p1"] ["dA"] 1 ["dA"]
      ⟨["dA", "dB"], []⟩ (by decide) rfl (by decide) (by decide) (by decide) (by decide)
      "dA"
    rw [h]
    rfl

end ITElPython
